import Mathlib

/-!
# opencensus-gokit-example: client endpoint factory, QR service, frontend service

A shallow embedding of

* `shared/factory/http.go` (`CreateHTTPEndpoint`),
* `services/qr/implementation/service.go` (`service.Generate`),
* `frontend/implementation/service.go` (`service.UnlockDevice`, `service.GenerateQR`),

together with the library functions these call (go-kit `endpoint.Chain`,
`circuitbreaker.Gobreaker`, `lb.Retry`, sony/gobreaker `Execute`, Go `strings.Trim`,
satori `UUID.String`).  Side effects that the properties speak about (which stage or
client has been entered) are made explicit as an event log that every call returns.
The `context.Context` argument and the structured logger are threaded through the Go
code unchanged and are left out.
-/

namespace Gokit

/-! ## Go values -/

/-- A Go `[]byte`. -/
abbrev Bytes := List (Fin 256)

/-- Values of Go's `error` interface that occur in the program.  `other` stands for any
error value created elsewhere (transport, encoder library, remote service). -/
inductive GoError where
  /-- `qr.ErrInvalidRecoveryLevel` -/
  | qrErrInvalidRecoveryLevel
  /-- `qr.ErrInvalidSize` -/
  | qrErrInvalidSize
  /-- `qr.ErrGenerate` -/
  | qrErrGenerate
  /-- `frontend.ErrRequireEventID` -/
  | feErrRequireEventID
  /-- `frontend.ErrRequireDeviceID` -/
  | feErrRequireDeviceID
  /-- `frontend.ErrRequireUnlockCode` -/
  | feErrRequireUnlockCode
  /-- `gobreaker.ErrOpenState` ("circuit breaker is open") -/
  | ErrOpenState
  /-- `gobreaker.ErrTooManyRequests` ("too many requests") -/
  | ErrTooManyRequests
  /-- `lb.ErrNoEndpoints` -/
  | ErrNoEndpoints
  /-- `context.DeadlineExceeded` -/
  | DeadlineExceeded
  /-- `context.Canceled` -/
  | Canceled
  /-- `lb.RetryError{RawErrors, Final}` -/
  | RetryError (RawErrors : List GoError) (Final : GoError)
  /-- Any other error value. -/
  | other (msg : String)

/-- A Go `time.Time`, in nanoseconds; `0` is the zero time. -/
abbrev Time := Int

/-- A Go `time.Duration`: a signed count of nanoseconds. -/
abbrev Duration := Int

/-- The constant `time.Second`. -/
def Second : Duration := 1000000000

/-- A request value (`interface{}` in the Go code). -/
abbrev Request := String

/-- A response value (`interface{}` in the Go code). -/
abbrev Response := String

/-- The pair `(interface{}, error)` an endpoint returns. -/
structure Result where
  response : Option Response
  err : Option GoError

/-- A `context.Context`, as far as the endpoints look at it: the instant from which
`Done()` is closed (`none`: never) and the error `Err()` gives from then on. -/
structure Context where
  doneAt : Option Time
  err : GoError

/-- The value `context.Background()`. -/
def Context.Background : Context := ⟨none, .Canceled⟩

/-- The method `ctx.Err()` read at the instant `now`. -/
def Context.Err (ctx : Context) (now : Time) : Option GoError :=
  match ctx.doneAt with
  | some t => if t ≤ now then some ctx.err else none
  | none => none

/-- The function `context.WithTimeout(parent, timeout)` called at `now`: the child is done
when the parent is, and at the latest at `now + timeout` with `DeadlineExceeded`. -/
def Context.WithTimeout (parent : Context) (now : Time) (timeout : Duration) : Context :=
  match parent.doneAt with
  | some t => if t < now + timeout then parent else ⟨some (now + timeout), .DeadlineExceeded⟩
  | none => ⟨some (now + timeout), .DeadlineExceeded⟩

/-! ## `github.com/sony/gobreaker` -/

namespace Gobreaker

/-- A `uint32` value after an increment. -/
def u32 (n : Nat) : Nat := n % 2 ^ 32

/-- A `uint64` value after an increment. -/
def u64 (n : Nat) : Nat := n % 2 ^ 64

/-- The struct `gobreaker.Counts`; every field is a `uint32`. -/
structure Counts where
  Requests : Nat
  TotalSuccesses : Nat
  TotalFailures : Nat
  ConsecutiveSuccesses : Nat
  ConsecutiveFailures : Nat
deriving DecidableEq, Repr

/-- The method `Counts.clear`; also the zero value of `Counts`. -/
def Counts.clear : Counts := ⟨0, 0, 0, 0, 0⟩

/-- The method `Counts.onRequest`. -/
def Counts.onRequest (c : Counts) : Counts :=
  { c with Requests := u32 (c.Requests + 1) }

/-- The method `Counts.onSuccess`. -/
def Counts.onSuccess (c : Counts) : Counts :=
  { c with
    TotalSuccesses := u32 (c.TotalSuccesses + 1)
    ConsecutiveSuccesses := u32 (c.ConsecutiveSuccesses + 1)
    ConsecutiveFailures := 0 }

/-- The method `Counts.onFailure`. -/
def Counts.onFailure (c : Counts) : Counts :=
  { c with
    TotalFailures := u32 (c.TotalFailures + 1)
    ConsecutiveFailures := u32 (c.ConsecutiveFailures + 1)
    ConsecutiveSuccesses := 0 }

/-- The type `gobreaker.State`. -/
inductive State where
  | StateClosed
  | StateHalfOpen
  | StateOpen
deriving DecidableEq, Repr

/-- The struct `gobreaker.Settings`; a nil `ReadyToTrip` is `none`.  `OnStateChange` is
never set by the program and is left out. -/
structure Settings where
  Name : String
  MaxRequests : Nat
  Interval : Duration
  Timeout : Duration
  ReadyToTrip : Option (Counts → Bool)

/-- The constant `defaultTimeout`: 60 seconds. -/
def defaultTimeout : Duration := 60 * Second

/-- The function `defaultReadyToTrip`. -/
def defaultReadyToTrip (counts : Counts) : Bool :=
  decide (counts.ConsecutiveFailures > 5)

/-- The struct `gobreaker.CircuitBreaker` (its mutex apart). -/
structure CircuitBreaker where
  name : String
  maxRequests : Nat
  interval : Duration
  timeout : Duration
  readyToTrip : Counts → Bool
  state : State
  generation : Nat
  counts : Counts
  expiry : Time

/-- The method `toNewGeneration`. -/
def CircuitBreaker.toNewGeneration (cb : CircuitBreaker) (now : Time) : CircuitBreaker :=
  { cb with
    generation := u64 (cb.generation + 1)
    counts := Counts.clear
    expiry :=
      match cb.state with
      | .StateClosed => if cb.interval = 0 then 0 else now + cb.interval
      | .StateOpen => now + cb.timeout
      | .StateHalfOpen => 0 }

/-- The method `setState`. -/
def CircuitBreaker.setState (cb : CircuitBreaker) (state : State) (now : Time) :
    CircuitBreaker :=
  if cb.state = state then cb
  else ({ cb with state := state } : CircuitBreaker).toNewGeneration now

/-- The function `NewCircuitBreaker`, called at `now`. -/
def NewCircuitBreaker (st : Settings) (now : Time) : CircuitBreaker :=
  let cb : CircuitBreaker :=
    { name := st.Name
      maxRequests := if st.MaxRequests = 0 then 1 else st.MaxRequests
      interval := st.Interval
      timeout := if st.Timeout = 0 then defaultTimeout else st.Timeout
      readyToTrip := st.ReadyToTrip.getD defaultReadyToTrip
      state := .StateClosed
      generation := 0
      counts := Counts.clear
      expiry := 0 }
  cb.toNewGeneration now

/-- The method `currentState`: the breaker after the transitions that are due at `now`;
its fields `state` and `generation` are the two values the Go method returns. -/
def CircuitBreaker.currentState (cb : CircuitBreaker) (now : Time) : CircuitBreaker :=
  match cb.state with
  | .StateClosed =>
    if cb.expiry ≠ 0 ∧ cb.expiry < now then cb.toNewGeneration now else cb
  | .StateOpen =>
    if cb.expiry < now then cb.setState .StateHalfOpen now else cb
  | .StateHalfOpen => cb

/-- The method `beforeRequest`: the breaker afterwards, the generation, and the error
with which admission is denied (`none`: admitted). -/
def CircuitBreaker.beforeRequest (cb : CircuitBreaker) (now : Time) :
    CircuitBreaker × Nat × Option GoError :=
  let cb := cb.currentState now
  if cb.state = .StateOpen then
    (cb, cb.generation, some .ErrOpenState)
  else if cb.state = .StateHalfOpen ∧ cb.counts.Requests ≥ cb.maxRequests then
    (cb, cb.generation, some .ErrTooManyRequests)
  else
    ({ cb with counts := cb.counts.onRequest }, cb.generation, none)

/-- The method `onSuccess`. -/
def CircuitBreaker.onSuccess (cb : CircuitBreaker) (state : State) (now : Time) :
    CircuitBreaker :=
  match state with
  | .StateClosed => { cb with counts := cb.counts.onSuccess }
  | .StateHalfOpen =>
    let cb := { cb with counts := cb.counts.onSuccess }
    if cb.counts.ConsecutiveSuccesses ≥ cb.maxRequests then cb.setState .StateClosed now
    else cb
  | .StateOpen => cb

/-- The method `onFailure`. -/
def CircuitBreaker.onFailure (cb : CircuitBreaker) (state : State) (now : Time) :
    CircuitBreaker :=
  match state with
  | .StateClosed =>
    let cb := { cb with counts := cb.counts.onFailure }
    if cb.readyToTrip cb.counts then cb.setState .StateOpen now else cb
  | .StateHalfOpen => cb.setState .StateOpen now
  | .StateOpen => cb

/-- The method `afterRequest`. -/
def CircuitBreaker.afterRequest (cb : CircuitBreaker) (now : Time) (before : Nat)
    (success : Bool) : CircuitBreaker :=
  let cb := cb.currentState now
  if cb.generation ≠ before then cb
  else if success then cb.onSuccess cb.state now
  else cb.onFailure cb.state now

end Gobreaker

/-! ## The world the endpoints run in -/

/-- A parsed `*url.URL`. -/
structure URL where
  raw : String
deriving DecidableEq, Repr

/-- What a run leaves behind for an observer, in order of occurrence. -/
inductive Event where
  /-- The retry stage started attempt number `i`. -/
  | attempt (i : Nat)
  /-- The retry span was started with these annotations. -/
  | retrySpanStart (name : String) (balancer : String) (count : Int) (timeout : Duration)
  /-- The retry span was ended. -/
  | retrySpanEnd
  /-- The breaker of `inst` was asked for admission; `verdict` is its refusal, if any. -/
  | breaker (inst : String) (verdict : Option GoError)
  /-- The tracing stage started a span. -/
  | spanStart (name : String) (attrs : List (String × String)) (time : Time)
  /-- The tracing stage ended its span, recording the outcome. -/
  | spanEnd (time : Time) (err : Option GoError)
  /-- The endpoint returned by the middleware the caller supplied was entered. -/
  | middleware
  /-- The transport call was made. -/
  | transport (baseURL : URL) (request : Request)

/-- The event belongs to the tracing stage of a per-instance endpoint. -/
def Event.isSpan : Event → Bool
  | .spanStart _ _ _ => true
  | .spanEnd _ _ => true
  | _ => false

/-- The event is a transport call. -/
def Event.isTransport : Event → Bool
  | .transport _ _ => true
  | _ => false

/-- The event is an entry into the middleware the caller supplied. -/
def Event.isMiddleware : Event → Bool
  | .middleware => true
  | _ => false

/-- The mutable state the endpoints run in: the clock `time.Now()` reads, the breaker
each instance's endpoint owns (the pointer the closure of the factory captures is the
instance string), the numbers the random source will give, and the events so far. -/
structure World where
  clock : Time
  breakers : String → Gobreaker.CircuitBreaker
  rand : List Nat
  log : List Event

/-- Appends an event to the log. -/
def World.emit (w : World) (e : Event) : World :=
  { w with log := w.log ++ [e] }

/-- Stores the breaker of an instance. -/
def World.setBreaker (w : World) (inst : String) (cb : Gobreaker.CircuitBreaker) : World :=
  { w with breakers := fun i => if i = inst then cb else w.breakers i }

/-- The type `endpoint.Endpoint`. -/
abbrev Endpoint := Context → Request → World → Result × World

/-- The type `endpoint.Middleware`. -/
abbrev Middleware := Endpoint → Endpoint

/-- The function `endpoint.Chain` of go-kit: the first middleware is the outermost one,
the others are applied from the last to the first. -/
def Chain (outer : Middleware) (others : List Middleware) : Middleware :=
  fun next => outer (others.foldr (fun m acc => m acc) next)

/-- The function `circuitbreaker.Gobreaker` of go-kit around `CircuitBreaker.Execute`, for
the breaker owned by `inst`: ask for admission, on refusal return the breaker's error
without calling `next`, otherwise call `next` and report its outcome to the breaker. -/
def Gobreaker (inst : String) : Middleware :=
  fun next ctx request w =>
    match (w.breakers inst).beforeRequest w.clock with
    | (cb, _, some err) =>
      (⟨none, some err⟩, (w.setBreaker inst cb).emit (.breaker inst (some err)))
    | (cb, generation, none) =>
      let (res, w) := next ctx request ((w.setBreaker inst cb).emit (.breaker inst none))
      (res, w.setBreaker inst
        ((w.breakers inst).afterRequest w.clock generation res.err.isNone))

/-! ## `shared/factory/http.go` -/

/-- What the wire call of the kithttp client gives: a response or an error, and the time
it took. -/
structure TransportResult where
  response : Option Response
  err : Option GoError
  elapsed : Nat

/-- The collaborators of the factory: `url.Parse`, and the wire call that the kithttp
client endpoint makes for a base URL (request encoding, round trip and response decoding
with the `encodeRequest` and `decodeResponse` arguments). -/
structure Env where
  parse : String → Except GoError URL
  transport : URL → Context → Request → Time → TransportResult

/-- The endpoint `kithttp.NewClient("", baseURL, encodeRequest, decodeResponse,
options...).Endpoint()`. -/
def clientEndpoint (env : Env) (baseURL : URL) : Endpoint :=
  fun ctx request w =>
    let r := env.transport baseURL ctx request w.clock
    (⟨r.response, r.err⟩,
      { (w.emit (.transport baseURL request)) with clock := w.clock + r.elapsed })

/-- Modelled from the spec: `oc.ClientEndpoint` of the package `shared/oc`, whose source
is not at hand.  The tracing stage starts a span carrying the operation name and the
given attributes, calls the next endpoint, records the outcome, ends the span and hands
on what the next endpoint returned. -/
def ClientEndpoint (operationName : String) (attrs : List (String × String)) : Middleware :=
  fun next ctx request w =>
    let (res, w) := next ctx request (w.emit (.spanStart operationName attrs w.clock))
    (res, w.emit (.spanEnd w.clock res.err))

/-- The middleware the caller supplied, observed: entering the endpoint it returns is
recorded. -/
def observed (middleware : Middleware) : Middleware :=
  fun next ctx request w => middleware next ctx request (w.emit .middleware)

/-- The trip predicate the factory hands to every breaker. -/
def ReadyToTrip (counts : Gobreaker.Counts) : Bool :=
  decide (counts.ConsecutiveFailures > 5)

/-- The settings the factory hands to `gobreaker.NewCircuitBreaker`. -/
def breakerSettings : Gobreaker.Settings :=
  { Name := ""
    MaxRequests := 5
    Interval := 10 * Second
    Timeout := 10 * Second
    ReadyToTrip := some ReadyToTrip }

/-- An `io.Closer`. -/
structure Closer where
  id : Nat

/-- What the factory returns: `(endpoint.Endpoint, io.Closer, error)`, each maybe nil. -/
structure FactoryResult where
  endpoint : Option Endpoint
  closer : Option Closer
  err : Option GoError

/-- The endpoint the factory builds for an instance whose address parsed to `baseURL`:
`endpoint.Chain(cb, tr, middleware)(clientEndpoint)`. -/
def instanceEndpoint (env : Env) (middleware : Middleware) (operationName : String)
    (inst : String) (baseURL : URL) : Endpoint :=
  -- set-up our Go kit client endpoint
  let clientEndpoint := clientEndpoint env baseURL
  -- configure per instance circuit breaker middleware
  let cb := Gobreaker inst
  -- middleware to trace our client endpoint
  let tr := ClientEndpoint operationName [("peer.address", inst)]
  -- chain our middlewares and wrap our endpoint
  Chain cb [tr, observed middleware] clientEndpoint

/-- The closure `factory` of `CreateHTTPEndpoint`, called for an instance received from
service discovery: it creates the breaker of the instance and returns the endpoint. -/
def factory (env : Env) (middleware : Middleware) (operationName : String)
    (inst : String) (w : World) : FactoryResult × World :=
  match env.parse inst with
  | .error err =>
    -- invalid instance string received... can't build endpoint
    (⟨none, none, some err⟩, w)
  | .ok baseURL =>
    (⟨some (instanceEndpoint env middleware operationName inst baseURL), none, none⟩,
      w.setBreaker inst (Gobreaker.NewCircuitBreaker breakerSettings w.clock))

/-! ### Endpointer, balancer, retry -/

/-- The struct `endpointCache` of go-kit `sd`, the state of the endpointer: the map from
instance to endpoint, and the slice of endpoints handed to the balancer. -/
structure EndpointCache where
  cache : List (String × Endpoint)
  endpoints : List Endpoint

/-- The endpointer before the first discovery event. -/
def EndpointCache.empty : EndpointCache := ⟨[], []⟩

/-- The assignment `cache[inst] = e` on a Go map. -/
def mapSet (cache : List (String × Endpoint)) (inst : String) (e : Endpoint) :
    List (String × Endpoint) :=
  (inst, e) :: cache.filter (fun sc => sc.1 ≠ inst)

/-- The loop of `endpointCache.updateCache` over the sorted instances: `old` is what is
left of the previous cache, `cache` the new one.  An instance still in `old` is carried
over; for any other the factory is called, and an instance for which it returns an error
is skipped. -/
def fillCache (factory : String → World → FactoryResult × World) :
    List String → List (String × Endpoint) → List (String × Endpoint) → World →
      List (String × Endpoint) × World
  | [], _, cache, w => (cache, w)
  | inst :: rest, old, cache, w =>
    match old.find? (fun sc => sc.1 = inst) with
    | some sc =>
      fillCache factory rest (old.filter (fun sc => sc.1 ≠ inst)) (mapSet cache inst sc.2) w
    | none =>
      match factory inst w with
      | (⟨some e, _, none⟩, w) => fillCache factory rest old (mapSet cache inst e) w
      | (_, w) => fillCache factory rest old cache w

/-- The order `<=` of Go on strings, on their code points: lexicographic, a proper
prefix first. -/
def stringLE : List Char → List Char → Bool
  | [], _ => true
  | _ :: _, [] => false
  | a :: as, b :: bs =>
    if a.toNat < b.toNat then true
    else if b.toNat < a.toNat then false
    else stringLE as bs

/-- The function `sort.Strings`. -/
def sortStrings (instances : List String) : List String :=
  instances.insertionSort (fun a b => stringLE a.data b.data = true)

/-- The method `endpointCache.Update` for a discovery event without error, as set up by
`sd.NewEndpointer(instancer, factory, logger)`: the endpoints afterwards are those of
the new cache, in the sorted order of the instances. -/
def updateCache (factory : String → World → FactoryResult × World) (c : EndpointCache)
    (instances : List String) (w : World) : EndpointCache × World :=
  let instances := sortStrings instances
  let (cache, w) := fillCache factory instances c.cache [] w
  (⟨cache, instances.filterMap
      (fun inst => (cache.find? (fun sc => sc.1 = inst)).map (fun sc => sc.2))⟩, w)

/-- The method `rand.Intn(n)` on the random source the balancer was seeded with. -/
def Intn (n : Nat) (h : 0 < n) (w : World) : Fin n × World :=
  match w.rand with
  | [] => (⟨0, h⟩, w)
  | r :: rest => (⟨r % n, Nat.mod_lt r h⟩, { w with rand := rest })

/-- The interface `lb.Balancer`: its method `Endpoint()`. -/
abbrev Balancer := World → Except GoError Endpoint × World

/-- The balancer `lb.NewRandom(endpoints, seed)`: a random pick among the endpoints the
endpointer holds, `ErrNoEndpoints` when there is none. -/
def NewRandom (s : EndpointCache) : Balancer :=
  fun w =>
    if h : s.endpoints.length ≤ 0 then (.error .ErrNoEndpoints, w)
    else
      let (k, w1) := Intn s.endpoints.length (by omega) w
      (.ok (s.endpoints.get k), w1)

/-- The type `lb.Callback`: given the number of the attempt and its error, whether to
keep trying and an optional replacement error. -/
abbrev Callback := Nat → GoError → Bool × Option GoError

/-- The function `maxRetries` of go-kit `lb`. -/
def maxRetries (max : Int) : Callback :=
  fun n _ => (decide ((n : Int) < max), none)

/-- A run of the retry stage: what it returns, how many attempts it started, the instant
at which it returns, whether its last attempt is still in flight at that instant, and
the world once that attempt has settled. -/
structure RetryRun where
  result : Result
  world : World
  attempts : Nat
  returnedAt : Time
  inFlight : Bool

/-- The body of the goroutine of one attempt, number `i`: ask the balancer for an
endpoint and call it with the bounded context. -/
def attempt (b : Balancer) (newctx : Context) (request : Request) (i : Nat) (w : World) :
    Result × World :=
  match b (w.emit (.attempt i)) with
  | (.error err, w) => (⟨none, some err⟩, w)
  | (.ok e, w) => e newctx request w

/-- The loop `for i := 1; ; i++` of `lb.RetryWithCallback`, with `fuel` bounding the
number of iterations (`none`: not finished within the fuel).  The goroutine of an
attempt and the `select` are put in sequence: the `select` is resolved by the instant at
which the attempt ends.  If the bounded context is done by then, the case
`<-newctx.Done()` is taken: the loop returns the error of the context at the instant the
context is done (at once when it already is), with the attempt still in flight; the
world of the run is the one the attempt leaves when it has settled.  Otherwise a
response is returned, and an error is appended to `RawErrors` and put to the callback. -/
def retryLoop (b : Balancer) (cb : Callback) (newctx : Context) (request : Request) :
    Nat → Nat → List GoError → World → Option RetryRun
  | 0, _, _, _ => none
  | fuel + 1, i, raw, w0 =>
    match attempt b newctx request i w0 with
    | (out, w) =>
      match newctx.Err w.clock with
      | some ctxErr =>
        let t := max w0.clock (newctx.doneAt.getD w0.clock)
        some ⟨⟨none, some ctxErr⟩, w, i, t, decide (t < w.clock)⟩
      | none =>
        match out.err with
        | none => some ⟨⟨out.response, none⟩, w, i, w.clock, false⟩
        | some err =>
          let raw := raw ++ [err]
          match cb i err with
          | (keepTrying, replacement) =>
            let err := replacement.getD err
            if keepTrying then retryLoop b cb newctx request fuel (i + 1) raw w
            else some ⟨⟨none, some (.RetryError raw err)⟩, w, i, w.clock, false⟩

/-- The function `lb.RetryWithCallback(timeout, b, cb)`. -/
def RetryWithCallback (timeout : Duration) (b : Balancer) (cb : Callback) (fuel : Nat)
    (ctx : Context) (request : Request) (w : World) : Option RetryRun :=
  retryLoop b cb (ctx.WithTimeout w.clock timeout) request fuel 1 [] w

/-- A run of `lb.Retry(max, timeout, b)`, which is `RetryWithCallback(timeout, b,
maxRetries(max))`.  The loop ends after `max` attempts at the latest (after one when
`max` is not positive), so the fuel given suffices (`retryLoop_maxRetries`) and
the fallback is never taken. -/
def Retry.run (max : Int) (timeout : Duration) (b : Balancer) (ctx : Context)
    (request : Request) (w : World) : RetryRun :=
  (RetryWithCallback timeout b (maxRetries max) (max.toNat + 1) ctx request w).getD
    ⟨⟨none, none⟩, w, 0, w.clock, false⟩

/-- The endpoint `lb.Retry(max, timeout, b)`.  When the run ends with an attempt in
flight, the world handed on is the one in which that attempt has settled. -/
def Retry (max : Int) (timeout : Duration) (b : Balancer) : Endpoint :=
  fun ctx request w =>
    let r := Retry.run max timeout b ctx request w
    (r.result, r.world)

/-- Modelled from the spec: the constant `oc.Random` of the package `shared/oc`, whose
source is not at hand; it names the balancer policy, uniform-random selection. -/
def ocRandom : String := "random"

/-- Modelled from the spec: `oc.RetryEndpoint` of the package `shared/oc`, whose source is
not at hand.  It wraps the retries in a parent span annotated with the operation name,
the balancer policy, the attempt count and the timeout, and hands on what the wrapped
endpoint returned. -/
def RetryEndpoint (operationName : String) (balancer : String) (max : Int)
    (timeout : Duration) : Middleware :=
  fun next ctx request w =>
    let (res, w) := next ctx request (w.emit (.retrySpanStart operationName balancer max timeout))
    (res, w.emit .retrySpanEnd)

/-- Modelled from the spec: `errormw.UnwrapError` of the package `shared/errormw`, whose
source is not at hand.  Only the final error is surfaced to the caller: a `RetryError`
is replaced by its `Final` error, anything else is handed on unchanged. -/
def UnwrapError : Middleware :=
  fun next ctx request w =>
    match next ctx request w with
    | (⟨response, some (.RetryError _ final)⟩, w) => (⟨response, some final⟩, w)
    | (res, w) => (res, w)

/-- The retry settings of `CreateHTTPEndpoint`: the variables `count` and `timeout`. -/
def count : Int := 3

/-- The variable `timeout` of `CreateHTTPEndpoint`. -/
def timeout : Duration := 5 * Second

/-- The endpointer `sd.NewEndpointer(instancer, factory, log.NewNopLogger())` of
`CreateHTTPEndpoint` receiving the instances of a discovery event of the instancer. -/
def endpointerUpdate (env : Env) (middleware : Middleware) (operationName : String)
    (endpoints : EndpointCache) (instances : List String) (w : World) :
    EndpointCache × World :=
  updateCache (factory env middleware operationName) endpoints instances w

/-- The endpoint `CreateHTTPEndpoint` returns, with `endpoints` the state of its
endpointer at the time of the call (built from the discovery events of the `instancer`
argument by `endpointerUpdate`). -/
def CreateHTTPEndpoint (endpoints : EndpointCache) (operationName : String) : Endpoint :=
  -- balancer can do a random pick from the endpoint list
  let balancer := NewRandom endpoints
  -- retry uses balancer for executing a method call with retry and timeout logic
  let endpoint := Retry count timeout balancer
  -- wrap our retries in an annotated parent span
  let endpoint := RetryEndpoint operationName ocRandom count timeout endpoint
  -- unwrap business logic errors
  UnwrapError endpoint

/-- The world in which the retry stage starts inside a call of the endpoint
`CreateHTTPEndpoint` returns: the retry span has been started. -/
def retryStart (operationName : String) (w : World) : World :=
  w.emit (.retrySpanStart operationName ocRandom count timeout)

/-- The bounded context `newctx` the retry stage hands to every attempt of such a call. -/
def retryCtx (ctx : Context) (w : World) : Context :=
  ctx.WithTimeout w.clock timeout

/-- The run of the retry stage inside one call of the endpoint `CreateHTTPEndpoint`
returns. -/
def retryRunOf (endpoints : EndpointCache) (operationName : String) (ctx : Context)
    (request : Request) (w : World) : RetryRun :=
  Retry.run count timeout (NewRandom endpoints) ctx request (retryStart operationName w)

/-- The world before any discovery event and any call, at the instant `now`.  No breaker
has been created yet; the map of breakers is total, and the factory overwrites the entry
of an instance when it builds its endpoint. -/
def World.init (now : Time) (rand : List Nat) : World :=
  { clock := now
    breakers := fun _ => Gobreaker.NewCircuitBreaker breakerSettings now
    rand := rand
    log := [] }

/-! ## `services/qr/implementation/service.go` -/

namespace Qr

/-- The constants `qr.LevelL` and `qr.LevelH` of the `qr` package; `RecoveryLevel` is an
integer type and the declarations are outside the sources at hand, so they are taken as
parameters. -/
structure Levels where
  LevelL : Int
  LevelH : Int

/-- One call of `qrcode.Encode(content, level, size)`. -/
structure EncodeCall where
  content : String
  level : Int
  size : Int
deriving DecidableEq, Repr

/-- The library function `qrcode.Encode`: returns a `[]byte` (maybe nil) and an `error`
(maybe nil). -/
abbrev Encoder := String → Int → Int → Option Bytes × Option GoError

/-- What one call of `service.Generate` returns and which encoder calls it made. -/
structure Run where
  bytes : Option Bytes
  err : Option GoError
  encodeCalls : List EncodeCall

/-- The method `service.Generate`. -/
def Generate (lv : Levels) (encode : Encoder) (url : String) (recLevel : Int) (size : Int) :
    Run :=
  -- test for valid input
  if recLevel < lv.LevelL ∨ recLevel > lv.LevelH then
    { bytes := none, err := some .qrErrInvalidRecoveryLevel, encodeCalls := [] }
  else if size > 4096 then
    { bytes := none, err := some .qrErrInvalidSize, encodeCalls := [] }
  else
    -- do the actual work
    let (b, err) := encode url recLevel size
    let err := match err with
      | some _ => some GoError.qrErrGenerate
      | none => none
    { bytes := b, err := err, encodeCalls := [⟨url, recLevel, size⟩] }

end Qr

/-! ## `frontend/implementation/service.go` -/

namespace Frontend

/-- A `uuid.UUID`: an array of 16 bytes. -/
structure UUID where
  bytes : List (Fin 256)
  size_eq : bytes.length = 16
deriving DecidableEq

/-- The value `uuid.Nil`: all 16 bytes zero. -/
def UUID.Nil : UUID := ⟨List.replicate 16 0, by decide⟩

/-- One digit of `encoding/hex`, whose table is `0123456789abcdef`. -/
def hexDigit (n : Nat) : Char :=
  "0123456789abcdef".data.getD n '0'

/-- The function `hex.Encode`: two lower-case digits per byte, high nibble first. -/
def hexEncode : List (Fin 256) → List Char
  | [] => []
  | b :: bs => hexDigit (b.val / 16) :: hexDigit (b.val % 16) :: hexEncode bs

/-- The method `UUID.String`: the canonical form `xxxxxxxx-xxxx-xxxx-xxxx-xxxxxxxxxxxx`,
the bytes 0..4, 4..6, 6..8, 8..10 and 10..16 in hex, joined by dashes. -/
def UUID.String (u : UUID) : String :=
  ⟨hexEncode (u.bytes.take 4) ++ '-' :: hexEncode ((u.bytes.drop 4).take 2)
    ++ '-' :: hexEncode ((u.bytes.drop 6).take 2)
    ++ '-' :: hexEncode ((u.bytes.drop 8).take 2)
    ++ '-' :: hexEncode (u.bytes.drop 10)⟩

/-- The function `strings.TrimLeftFunc`: drops the leading code points satisfying `f`. -/
def TrimLeftFunc (s : String) (f : Char → Bool) : String :=
  ⟨s.data.dropWhile f⟩

/-- The function `strings.TrimRightFunc`: drops the trailing code points satisfying `f`. -/
def TrimRightFunc (s : String) (f : Char → Bool) : String :=
  ⟨s.data.rdropWhile f⟩

/-- The function `strings.TrimFunc`. -/
def TrimFunc (s : String) (f : Char → Bool) : String :=
  TrimRightFunc (TrimLeftFunc s f) f

/-- The function `strings.Trim(s, cutset)`: `s` without the leading and trailing code
points contained in `cutset`.  A Go string is taken as the sequence of its code points;
the cutset used here is ASCII, for which trimming bytes and trimming code points agree. -/
def Trim (s : String) (cutset : String) : String :=
  if s = "" ∨ cutset = "" then s
  else TrimFunc s (fun r => decide (r ∈ cutset.data))

/-- The cutset both methods trim the unlock code with: carriage return, newline, tab and
space. -/
def cutset : String := "\r\n\t "

/-- The fields of `device.Session` the frontend reads. -/
structure DeviceSession where
  EventCaption : String
  DeviceCaption : String
deriving DecidableEq, Repr

/-- The struct `frontend.Session`. -/
structure Session where
  EventID : UUID
  EventCaption : String
  DeviceID : UUID
  DeviceCaption : String
  Token : String
deriving DecidableEq

/-- One call `devClient.Unlock(ctx, eventID, deviceID, unlockCode)`. -/
structure UnlockCall where
  eventID : UUID
  deviceID : UUID
  unlockCode : String
deriving DecidableEq

/-- One call `qrClient.Generate(ctx, url, recLevel, size)`. -/
structure GenerateCall where
  url : String
  recLevel : Int
  size : Int
deriving DecidableEq, Repr

/-- The method `Unlock` of the device client: a `*device.Session` (maybe nil) and an
`error` (maybe nil). -/
abbrev DevClient := UUID → UUID → String → Option DeviceSession × Option GoError

/-- The method `Generate` of the QR client. -/
abbrev QrClient := String → Int → Int → Option Bytes × Option GoError

/-- How a method call ends: it returns a value (maybe nil) and an error (maybe nil), or
it panics on a nil pointer dereference. -/
inductive Outcome (α : Type) where
  | ret (value : Option α) (err : Option GoError)
  | panic

/-- The outcome of a method call of the frontend service and the client calls it made,
in order. -/
structure Run (α : Type) where
  outcome : Outcome α
  devCalls : List UnlockCall
  qrCalls : List GenerateCall

/-- The method `service.UnlockDevice`. -/
def UnlockDevice (devClient : DevClient) (eventID deviceID : UUID) (unlockCode : String) :
    Run Session :=
  if eventID = UUID.Nil then
    ⟨.ret none (some .feErrRequireEventID), [], []⟩
  else if deviceID = UUID.Nil then
    ⟨.ret none (some .feErrRequireDeviceID), [], []⟩
  else
    let unlockCode := Trim unlockCode cutset
    if unlockCode = "" then
      ⟨.ret none (some .feErrRequireUnlockCode), [], []⟩
    else
      let calls := [UnlockCall.mk eventID deviceID unlockCode]
      match devClient eventID deviceID unlockCode with
      | (_, some err) => ⟨.ret none (some err), calls, []⟩
      | (some session, none) =>
        ⟨.ret (some
            { EventID := eventID
              EventCaption := session.EventCaption
              DeviceID := deviceID
              DeviceCaption := session.DeviceCaption
              Token := "TOKEN" }) none, calls, []⟩
      | (none, none) => ⟨.panic, calls, []⟩

/-- The method `service.GenerateQR`; `LevelM` is the constant `qr.LevelM`, declared
outside the sources at hand. -/
def GenerateQR (LevelM : Int) (qrClient : QrClient) (eventID deviceID : UUID)
    (unlockCode : String) : Run Bytes :=
  if eventID = UUID.Nil then
    ⟨.ret none (some .feErrRequireEventID), [], []⟩
  else if deviceID = UUID.Nil then
    ⟨.ret none (some .feErrRequireDeviceID), [], []⟩
  else
    let unlockCode := Trim unlockCode cutset
    if unlockCode = "" then
      ⟨.ret none (some .feErrRequireUnlockCode), [], []⟩
    else
      let url := eventID.String ++ ":" ++ deviceID.String ++ ":" ++ unlockCode
      let (b, err) := qrClient url LevelM 256
      ⟨.ret b err, [], [⟨url, LevelM, 256⟩]⟩

/-- A call was rejected with `e`: it returned a nil result together with `e` and called
neither the device client nor the QR client. -/
def Run.rejectedWith {α : Type} (r : Run α) (e : GoError) : Prop :=
  r.outcome = .ret none (some e) ∧ r.devCalls = [] ∧ r.qrCalls = []

/-- The code point is one of carriage return, newline, tab and space. -/
def isBlank (c : Char) : Prop :=
  c = '\r' ∨ c = '\n' ∨ c = '\t' ∨ c = ' '

end Frontend

end Gokit

namespace Gokit

/-- The instance address parses as a URL. -/
def parses (env : Env) (inst : String) : Prop := ∃ u, env.parse inst = .ok u

/-! ## Sample inputs -/

/-- A sample environment: every address but `bad` parses; a wire call to `http://b` is
answered with `pong`, any other is refused; either takes one nanosecond. -/
def sampleEnv : Env :=
  { parse := fun s => if s = "bad" then .error (.other "parse") else .ok ⟨s⟩
    transport := fun u _ _ _ =>
      if u.raw = "http://b" then ⟨some "pong", none, 1⟩
      else ⟨none, some (.other "refused"), 1⟩ }

/-- A middleware that does nothing but call the next endpoint. -/
def passThrough : Middleware := fun next => next

/-- Calling an endpoint `n` times in a row with the background context. -/
def callN (e : Endpoint) : Nat → World → World
  | 0, w => w
  | n + 1, w => (e Context.Background "req" (callN e n w)).2

/-- The endpoint the factory builds for the instance `http://a` in the sample
environment. -/
def sampleEndpoint : Endpoint :=
  instanceEndpoint sampleEnv passThrough "op" "http://a" ⟨"http://a"⟩

/-- The world after the factory built that endpoint at the instant 100. -/
def sampleFresh : World :=
  (factory sampleEnv passThrough "op" "http://a" (World.init 100 [])).2

/-- The world after six calls of that endpoint in a row, each refused by the transport. -/
def sampleOpen : World := callN sampleEndpoint 6 sampleFresh

/-- The endpointer and the world after discovery reported three instances at the instant
100; the random source will give 0 and then 1. -/
def samplePair : EndpointCache × World :=
  endpointerUpdate sampleEnv passThrough "op" EndpointCache.empty
    ["http://b", "bad", "http://a"] (World.init 100 [0, 1])

/-- The world after the first attempt of a call in `samplePair`. -/
def samplePairFirst : World :=
  (attempt (NewRandom samplePair.1) (retryCtx Context.Background samplePair.2) "req" 1
    (retryStart "op" samplePair.2)).2

/-- The world after the second attempt of that call. -/
def samplePairSecond : World :=
  (attempt (NewRandom samplePair.1) (retryCtx Context.Background samplePair.2) "req" 2
    samplePairFirst).2

/-- The breaker after a request was admitted (or refused) at the instant `t` and has not
come back yet: the method `beforeRequest` alone. -/
def afterAdmission (t : Time) (cb : Gobreaker.CircuitBreaker) : Gobreaker.CircuitBreaker :=
  (cb.beforeRequest t).1

/-- The instant 20 seconds after the world `sampleOpen`: the cool-down of the open
breaker is over. -/
def sampleLater : Time := sampleOpen.clock + 20 * Second

/-- The world `sampleOpen` 20 seconds later, with five requests admitted by the breaker
of `http://a` and still in flight. -/
def sampleHalfOpen : World :=
  ({ sampleOpen with clock := sampleLater } : World).setBreaker "http://a"
    ((afterAdmission sampleLater)^[5] (sampleOpen.breakers "http://a"))

/-- A sample environment in which every wire call is refused after three seconds. -/
def sampleSlowEnv : Env :=
  { parse := fun s => .ok ⟨s⟩
    transport := fun _ _ _ _ => ⟨none, some (.other "refused"), 3000000000⟩ }

/-- The endpointer and the world after discovery reported the instance `http://a` in
that environment at the instant 100. -/
def sampleSlow : EndpointCache × World :=
  endpointerUpdate sampleSlowEnv passThrough "op" EndpointCache.empty ["http://a"]
    (World.init 100 [])

/-- The world after the first attempt of a call in `sampleSlow`. -/
def sampleSlowFirst : World :=
  (attempt (NewRandom sampleSlow.1) (retryCtx Context.Background sampleSlow.2) "req" 1
    (retryStart "op" sampleSlow.2)).2

/-- A sample encoder: it fails on the empty content and otherwise gives one byte. -/
def sampleEncoder : Qr.Encoder :=
  fun content _ _ => if content = "" then (none, some (.other "no data")) else (some [7], none)

/-- Sample recovery levels: `LevelL` is 0 and `LevelH` is 3. -/
def sampleLevels : Qr.Levels := ⟨0, 3⟩

/-- A sample event identifier: every byte is 1. -/
def sampleEvent : Frontend.UUID := ⟨List.replicate 16 1, by decide⟩

/-- A sample device identifier: every byte is 255. -/
def sampleDevice : Frontend.UUID := ⟨List.replicate 16 255, by decide⟩

/-- A sample QR client: it answers every call with one byte. -/
def sampleQrClient : Frontend.QrClient := fun _ _ _ => (some [7], none)

/-- A sample device client: it answers every call with a session. -/
def sampleDevClient : Frontend.DevClient := fun _ _ _ => (some ⟨"event", "device"⟩, none)

end Gokit

/-! # Properties -/

namespace Gokit

/-! ## Lemmas on `strings.Trim` -/

namespace Frontend

/-- A code point is in the cutset exactly when it is blank. -/
theorem mem_cutset (c : Char) : c ∈ cutset.data ↔ isBlank c := by
  simp [cutset, isBlank]

/-- The code points of a trimmed string: the blanks dropped at the left, then at the right. -/
theorem Trim_data (s : String) :
    (Trim s cutset).data = (s.data.dropWhile (fun r => decide (r ∈ cutset.data))).rdropWhile
      (fun r => decide (r ∈ cutset.data)) := by
  unfold Trim
  by_cases hs : s = ""
  · subst hs; simp
  · have hc : cutset ≠ "" := by decide
    simp [hs, hc, TrimFunc, TrimRightFunc, TrimLeftFunc]

/-- Trimming leaves nothing exactly when every code point is blank. -/
theorem Trim_eq_empty_iff (s : String) :
    Trim s cutset = "" ↔ ∀ c ∈ s.data, isBlank c := by
  rw [String.ext_iff, Trim_data]
  simp only [← mem_cutset]
  show _ = [] ↔ _
  rw [List.rdropWhile_eq_nil_iff]
  constructor
  · intro h
    have : s.data.dropWhile (fun r => decide (r ∈ cutset.data)) = [] := by
      by_contra hne
      have h1 := List.head_dropWhile_not (fun r => decide (r ∈ cutset.data)) s.data hne
      have h2 := h _ (List.head_mem hne)
      simp_all
    rw [List.dropWhile_eq_nil_iff] at this
    simpa using this
  · intro h x hx
    have := h x ((List.dropWhile_suffix _).subset hx)
    simpa using this

/-- A trimmed string does not start with a blank. -/
theorem Trim_head_not_blank (s : String) (c : Char)
    (h : (Trim s cutset).data.head? = some c) : ¬ isBlank c := by
  rw [Trim_data] at h
  set f : Char → Bool := fun r => decide (r ∈ cutset.data) with hf
  have hpre : (s.data.dropWhile f).rdropWhile f <+: s.data.dropWhile f :=
    List.rdropWhile_prefix f _
  obtain ⟨t, ht⟩ := hpre
  cases hr : (s.data.dropWhile f).rdropWhile f with
  | nil => rw [hr] at h; simp at h
  | cons a l =>
    rw [hr] at h ht
    simp at h
    subst h
    have hne : s.data.dropWhile f ≠ [] := by rw [← ht]; simp
    have h1 := List.head_dropWhile_not f s.data hne
    have : (s.data.dropWhile f).head hne = a := by
      simp [← ht]
    rw [this] at h1
    rw [← mem_cutset]
    simpa [hf] using h1

/-- A trimmed string does not end with a blank. -/
theorem Trim_last_not_blank (s : String) (c : Char)
    (h : (Trim s cutset).data.getLast? = some c) : ¬ isBlank c := by
  rw [Trim_data] at h
  set f : Char → Bool := fun r => decide (r ∈ cutset.data) with hf
  have hne : (s.data.dropWhile f).rdropWhile f ≠ [] := by
    intro h0; rw [h0] at h; simp at h
  have h1 := List.rdropWhile_last_not f (s.data.dropWhile f) hne
  rw [List.getLast?_eq_getLast _ hne] at h
  simp at h
  rw [h] at h1
  rw [← mem_cutset]
  simpa [hf] using h1

end Frontend

/-! ## Lemmas on the breaker and the endpoint chain -/

open Gobreaker

/-- When `beforeRequest` denies admission, the breaker is left as `currentState` leaves it
and the error is one of the two rejection errors, `ErrOpenState` in the open state. -/
theorem beforeRequest_denied (cb : CircuitBreaker) (now : Time) (err : GoError)
    (h : (cb.beforeRequest now).2.2 = some err) :
    cb.beforeRequest now = (cb.currentState now, (cb.currentState now).generation, some err) ∧
    (err = .ErrOpenState ∨ err = .ErrTooManyRequests) ∧
    ((cb.currentState now).state = .StateOpen → err = .ErrOpenState) := by
  unfold CircuitBreaker.beforeRequest at h ⊢
  by_cases h1 : (cb.currentState now).state = .StateOpen
  · simp [h1] at h ⊢
    simp [← h]
  · by_cases h2 : (cb.currentState now).state = .StateHalfOpen ∧
        (cb.currentState now).counts.Requests ≥ (cb.currentState now).maxRequests
    · simp [h1, h2] at h ⊢
      simp [← h]
    · simp only [h1, h2, if_false] at h
      simp at h

/-- Admission is denied in two situations only: the breaker is open, with `ErrOpenState`,
or it is half-open with all its trial requests admitted, with `ErrTooManyRequests`. -/
theorem beforeRequest_denied_cases (cb : CircuitBreaker) (now : Time) (err : GoError)
    (h : (cb.beforeRequest now).2.2 = some err) :
    ((cb.currentState now).state = .StateOpen ∧ err = .ErrOpenState) ∨
    ((cb.currentState now).state = .StateHalfOpen ∧
      (cb.currentState now).counts.Requests ≥ (cb.currentState now).maxRequests ∧
      err = .ErrTooManyRequests) := by
  unfold CircuitBreaker.beforeRequest at h
  by_cases h1 : (cb.currentState now).state = .StateOpen
  · simp [h1] at h
    exact Or.inl ⟨h1, h.symm⟩
  · by_cases h2 : (cb.currentState now).state = .StateHalfOpen ∧
        (cb.currentState now).counts.Requests ≥ (cb.currentState now).maxRequests
    · simp [h1, h2] at h
      exact Or.inr ⟨h2.1, h2.2, h.symm⟩
    · simp only [h1, h2, if_false] at h
      simp at h

/-- The chain of the factory, unfolded: breaker, then tracing, then the caller's
middleware, then the transport call. -/
theorem instanceEndpoint_eq (env : Env) (middleware : Middleware) (operationName inst : String)
    (baseURL : URL) :
    instanceEndpoint env middleware operationName inst baseURL =
      Gobreaker inst (ClientEndpoint operationName [("peer.address", inst)]
        (observed middleware (clientEndpoint env baseURL))) := rfl

/-- A call the breaker denies returns the breaker error without calling `next`. -/
theorem Gobreaker_denied (inst : String) (next : Endpoint) (ctx : Context) (request : Request)
    (w : World) (err : GoError) (h : ((w.breakers inst).beforeRequest w.clock).2.2 = some err) :
    Gobreaker inst next ctx request w =
      (⟨none, some err⟩,
        (w.setBreaker inst ((w.breakers inst).currentState w.clock)).emit
          (.breaker inst (some err))) := by
  have h1 := (beforeRequest_denied _ _ _ h).1
  unfold Gobreaker
  rw [h1]

/-- Membership in a Go map after an assignment. -/
theorem mem_mapSet (cache : List (String × Endpoint)) (inst : String) (e : Endpoint)
    (sc : String × Endpoint) (h : sc ∈ mapSet cache inst e) : sc.1 = inst ∨ sc ∈ cache := by
  unfold mapSet at h
  rcases List.mem_cons.1 h with h | h
  · left; rw [h]
  · right; exact (List.mem_filter.1 h).1

/-- Every key of the cache the endpointer builds parses, provided the keys of the
previous cache do. -/
theorem fillCache_keys (env : Env) (middleware : Middleware) (operationName : String) :
    ∀ (instances : List String) (old cache : List (String × Endpoint)) (w : World),
      (∀ sc ∈ old, parses env sc.1) →
      (∀ sc ∈ cache, parses env sc.1) →
      ∀ sc ∈ (fillCache (factory env middleware operationName) instances old cache w).1,
        parses env sc.1 := by
  intro instances
  induction instances with
  | nil => intro old cache w _ hc; exact hc
  | cons inst rest ih =>
    intro old cache w ho hc
    unfold fillCache
    cases hf : old.find? (fun sc => sc.1 = inst) with
    | some sc0 =>
      simp only
      apply ih
      · intro sc hsc; exact ho sc (List.mem_filter.1 hsc).1
      · intro sc hsc
        rcases mem_mapSet _ _ _ _ hsc with h | h
        · have h0 := ho sc0 (List.mem_of_find?_eq_some hf)
          have h1 : sc0.1 = inst :=
            of_decide_eq_true (List.find?_some (p := fun sc : String × Endpoint => decide (sc.1 = inst)) hf)
          rw [h, ← h1]; exact h0
        · exact hc sc h
    | none =>
      simp only
      cases hp : env.parse inst with
      | error e =>
        simp only [factory, hp]
        exact ih old cache w ho hc
      | ok u =>
        simp only [factory, hp]
        apply ih
        · exact ho
        · intro sc hsc
          rcases mem_mapSet _ _ _ _ hsc with h | h
          · rw [h]; exact ⟨u, hp⟩
          · exact hc sc h

/-! ## Lemmas on the retry stage -/

/-- With the callback `maxRetries max` the loop of the retry stage ends within the fuel
once `max < i + fuel`, after at most `max` attempts (or after the one it starts with). -/
theorem retryLoop_maxRetries (b : Balancer) (max : Int) (newctx : Context) (request : Request) :
    ∀ (fuel i : Nat) (raw : List GoError) (w : World),
      0 < fuel → max < (i : Int) + (fuel : Int) →
      ∃ r, retryLoop b (maxRetries max) newctx request fuel i raw w = some r ∧
        i ≤ r.attempts ∧ ((r.attempts : Int) ≤ max ∨ r.attempts = i) := by
  intro fuel
  induction fuel with
  | zero => intro i raw w h; omega
  | succ fuel ih =>
    intro i raw w _ hmax
    unfold retryLoop
    rcases attempt b newctx request i w with ⟨out, w1⟩
    simp only
    cases newctx.Err w1.clock with
    | some ctxErr => exact ⟨_, rfl, le_refl _, Or.inr rfl⟩
    | none =>
      simp only
      cases out.err with
      | none => exact ⟨_, rfl, le_refl _, Or.inr rfl⟩
      | some err =>
        simp only [maxRetries]
        by_cases hlt : (i : Int) < max
        · simp only [hlt, decide_True, if_true]
          obtain ⟨r, hr, h1, h2⟩ := ih (i + 1) (raw ++ [err]) w1 (by omega) (by push_cast; omega)
          refine ⟨r, hr, by omega, ?_⟩
          rcases h2 with h2 | h2
          · exact Or.inl h2
          · left; rw [h2]; push_cast; omega
        · simp only [hlt, decide_False]
          exact ⟨_, rfl, le_refl _, Or.inr rfl⟩

/-- The run of `lb.Retry` is the result of the loop: the fuel it is given suffices. -/
theorem Retry_run_spec (max : Int) (timeout : Duration) (b : Balancer) (ctx : Context)
    (request : Request) (w : World) :
    retryLoop b (maxRetries max) (ctx.WithTimeout w.clock timeout) request (max.toNat + 1) 1 [] w
        = some (Retry.run max timeout b ctx request w) ∧
    1 ≤ (Retry.run max timeout b ctx request w).attempts ∧
    (((Retry.run max timeout b ctx request w).attempts : Int) ≤ max ∨
      (Retry.run max timeout b ctx request w).attempts = 1) := by
  obtain ⟨r, hr, h1, h2⟩ := retryLoop_maxRetries b max (ctx.WithTimeout w.clock timeout) request
    (max.toNat + 1) 1 [] w (by omega) (by push_cast; omega)
  have : Retry.run max timeout b ctx request w = r := by
    simp [Retry.run, RetryWithCallback, hr]
  rw [this]
  exact ⟨hr, h1, h2⟩

/-- One iteration of the loop whose attempt fails before the context is done. -/
theorem retryLoop_fail (b : Balancer) (max : Int) (newctx : Context) (request : Request)
    (fuel i : Nat) (raw : List GoError) (w w1 : World) (r : Option Response) (e : GoError)
    (h : attempt b newctx request i w = (⟨r, some e⟩, w1)) (hctx : newctx.Err w1.clock = none) :
    retryLoop b (maxRetries max) newctx request (fuel + 1) i raw w =
      if (i : Int) < max then retryLoop b (maxRetries max) newctx request fuel (i + 1)
          (raw ++ [e]) w1
      else some ⟨⟨none, some (.RetryError (raw ++ [e]) e)⟩, w1, i, w1.clock, false⟩ := by
  rw [retryLoop]
  simp [h, hctx, maxRetries]

/-- One iteration of the loop whose attempt succeeds before the context is done. -/
theorem retryLoop_ok (b : Balancer) (cb : Callback) (newctx : Context) (request : Request)
    (fuel i : Nat) (raw : List GoError) (w w1 : World) (r : Option Response)
    (h : attempt b newctx request i w = (⟨r, none⟩, w1)) (hctx : newctx.Err w1.clock = none) :
    retryLoop b cb newctx request (fuel + 1) i raw w =
      some ⟨⟨r, none⟩, w1, i, w1.clock, false⟩ := by
  rw [retryLoop]
  simp [h, hctx]

/-- One iteration of the loop during whose attempt the context is done: the loop returns
the error of the context, at the instant the context is done. -/
theorem retryLoop_done (b : Balancer) (cb : Callback) (newctx : Context) (request : Request)
    (fuel i : Nat) (raw : List GoError) (w w1 : World) (out : Result) (ctxErr : GoError)
    (h : attempt b newctx request i w = (out, w1))
    (hctx : newctx.Err w1.clock = some ctxErr) :
    retryLoop b cb newctx request (fuel + 1) i raw w =
      some ⟨⟨none, some ctxErr⟩, w1, i, max w.clock (newctx.doneAt.getD w.clock),
        decide (max w.clock (newctx.doneAt.getD w.clock) < w1.clock)⟩ := by
  rw [retryLoop]
  simp [h, hctx]

/-- Unwrapping the error leaves the world as the wrapped endpoint left it. -/
theorem UnwrapError_world (next : Endpoint) (ctx : Context) (request : Request) (w : World) :
    (UnwrapError next ctx request w).2 = (next ctx request w).2 := by
  unfold UnwrapError
  split <;> rename_i h <;> simp [h]

/-- A call of the endpoint `CreateHTTPEndpoint` returns, in terms of the run of its retry
stage. -/
theorem CreateHTTPEndpoint_eq (endpoints : EndpointCache) (operationName : String)
    (ctx : Context) (request : Request) (w : World) :
    CreateHTTPEndpoint endpoints operationName ctx request w =
      UnwrapError (fun _ _ _ =>
        ((retryRunOf endpoints operationName ctx request w).result,
          (retryRunOf endpoints operationName ctx request w).world.emit .retrySpanEnd))
        ctx request w := rfl

/-- The run of the retry stage inside a call is the result of the loop with fuel 4, and
it makes between one and three attempts. -/
theorem retryRunOf_loop (endpoints : EndpointCache) (operationName : String) (ctx : Context)
    (request : Request) (w : World) :
    retryLoop (NewRandom endpoints) (maxRetries 3) (retryCtx ctx w) request (3 + 1) 1 []
        (retryStart operationName w)
      = some (retryRunOf endpoints operationName ctx request w) ∧
    1 ≤ (retryRunOf endpoints operationName ctx request w).attempts ∧
    (retryRunOf endpoints operationName ctx request w).attempts ≤ 3 := by
  have hrun := Retry_run_spec count timeout (NewRandom endpoints) ctx request
    (retryStart operationName w)
  have hfuel : count.toNat + 1 = 3 + 1 := by decide
  rw [hfuel] at hrun
  have hc : count = 3 := rfl
  obtain ⟨hloop, h1, h2⟩ := hrun
  refine ⟨hloop, h1, ?_⟩
  change ((retryRunOf endpoints operationName ctx request w).attempts : Int) ≤ count ∨
    (retryRunOf endpoints operationName ctx request w).attempts = 1 at h2
  rw [hc] at h2
  omega

/-- Three attempts that fail before the deadline end the call after exactly three
attempts with the error of the third. -/
theorem retry_three_failures (endpoints : EndpointCache) (operationName : String)
    (ctx : Context) (request : Request) (w : World)
    (r1 r2 r3 : Option Response) (e1 e2 e3 : GoError) (w1 w2 w3 : World)
    (a1 : attempt (NewRandom endpoints) (retryCtx ctx w) request 1 (retryStart operationName w)
        = (⟨r1, some e1⟩, w1))
    (c1 : (retryCtx ctx w).Err w1.clock = none)
    (a2 : attempt (NewRandom endpoints) (retryCtx ctx w) request 2 w1 = (⟨r2, some e2⟩, w2))
    (c2 : (retryCtx ctx w).Err w2.clock = none)
    (a3 : attempt (NewRandom endpoints) (retryCtx ctx w) request 3 w2 = (⟨r3, some e3⟩, w3))
    (c3 : (retryCtx ctx w).Err w3.clock = none) :
    (retryRunOf endpoints operationName ctx request w).attempts = 3 ∧
    CreateHTTPEndpoint endpoints operationName ctx request w =
      (⟨none, some e3⟩, w3.emit .retrySpanEnd) ∧
    (retryRunOf endpoints operationName ctx request w).result =
      ⟨none, some (.RetryError [e1, e2, e3] e3)⟩ := by
  have hloop := (retryRunOf_loop endpoints operationName ctx request w).1
  rw [retryLoop_fail _ _ _ _ _ _ _ _ _ _ _ a1 c1] at hloop
  rw [retryLoop_fail _ _ _ _ _ _ _ _ _ _ _ a2 c2] at hloop
  rw [retryLoop_fail _ _ _ _ _ _ _ _ _ _ _ a3 c3] at hloop
  simp at hloop
  rw [CreateHTTPEndpoint_eq, ← hloop]
  exact ⟨rfl, rfl, rfl⟩

/-- What the endpoint hands on of the result of its retry stage: a response as it is, a
`RetryError` replaced by its `Final` error, any other error as it is. -/
theorem UnwrapError_result (endpoints : EndpointCache) (operationName : String)
    (ctx : Context) (request : Request) (w : World) :
    (∀ response, (retryRunOf endpoints operationName ctx request w).result = ⟨response, none⟩ →
      (CreateHTTPEndpoint endpoints operationName ctx request w).1 = ⟨response, none⟩) ∧
    (∀ response raw final,
      (retryRunOf endpoints operationName ctx request w).result =
        ⟨response, some (.RetryError raw final)⟩ →
      (CreateHTTPEndpoint endpoints operationName ctx request w).1 = ⟨response, some final⟩) ∧
    (∀ response e,
      (retryRunOf endpoints operationName ctx request w).result = ⟨response, some e⟩ →
      (∀ raw final, e ≠ .RetryError raw final) →
      (CreateHTTPEndpoint endpoints operationName ctx request w).1 = ⟨response, some e⟩) := by
  refine ⟨?_, ?_, ?_⟩
  · intro response h
    rw [CreateHTTPEndpoint_eq]
    simp [UnwrapError, h]
  · intro response raw final h
    rw [CreateHTTPEndpoint_eq]
    simp [UnwrapError, h]
  · intro response e h hne
    rw [CreateHTTPEndpoint_eq]
    unfold UnwrapError
    rw [h]
    split
    · rename_i heq
      simp only [Prod.mk.injEq, Result.mk.injEq, Option.some.injEq] at heq
      exact absurd heq.1.2 (hne _ _)
    · rename_i heq
      simp only [Prod.mk.injEq] at heq
      rw [← heq.1]

end Gokit

/-! # The claims -/

namespace Gokit

open Gobreaker

/-- C1, as the specification states it, fails: in the sample environment the endpoint the
factory built for `http://a` has had six calls refused by the transport, so its breaker
is open; the seventh call is rejected by the breaker with `ErrOpenState` and leaves
nothing but the breaker event behind, so it did not pass through the tracing stage. -/
theorem tracing_outermost_counterexample :
    (factory sampleEnv passThrough "op" "http://a" (World.init 100 [])).1.endpoint =
      some sampleEndpoint ∧
    ((sampleOpen.breakers "http://a").beforeRequest sampleOpen.clock).2.2 =
      some .ErrOpenState ∧
    (sampleEndpoint Context.Background "req" sampleOpen).1.err = some .ErrOpenState ∧
    (sampleEndpoint Context.Background "req" sampleOpen).2.log =
      sampleOpen.log ++ [.breaker "http://a" (some .ErrOpenState)] ∧
    ((sampleEndpoint Context.Background "req" sampleOpen).2.log.drop
      sampleOpen.log.length).any Event.isSpan = false := by
  refine ⟨rfl, rfl, rfl, rfl, rfl⟩

/-- C1, amended: for every instance address that parses as a URL, the endpoint the
factory builds applies its stages, from outermost to innermost, in the order circuit
breaker stage, tracing stage, middleware of the caller, transport call.  The breaker
stage wraps the tracing stage: a call the breaker rejects returns the breaker error and
leaves only the breaker event, no span; a call it admits, with a middleware that passes
the call on, returns what the transport gave and leaves the events breaker, span start,
middleware, transport, span end, in this order. -/
theorem stage_order (env : Env) (middleware : Middleware) (operationName inst : String)
    (baseURL : URL) (hparse : env.parse inst = .ok baseURL) :
    (∀ w0, (factory env middleware operationName inst w0).1.endpoint =
        some (Gobreaker inst (ClientEndpoint operationName [("peer.address", inst)]
          (observed middleware (clientEndpoint env baseURL))))) ∧
    (∀ (ctx : Context) (request : Request) (w : World) (err : GoError),
        ((w.breakers inst).beforeRequest w.clock).2.2 = some err →
        (instanceEndpoint env middleware operationName inst baseURL ctx request w).1 =
          ⟨none, some err⟩ ∧
        (instanceEndpoint env middleware operationName inst baseURL ctx request w).2.log =
          w.log ++ [.breaker inst (some err)]) ∧
    (∀ (ctx : Context) (request : Request) (w : World),
        ((w.breakers inst).beforeRequest w.clock).2.2 = none →
        (instanceEndpoint env passThrough operationName inst baseURL ctx request w).1 =
          ⟨(env.transport baseURL ctx request w.clock).response,
            (env.transport baseURL ctx request w.clock).err⟩ ∧
        (instanceEndpoint env passThrough operationName inst baseURL ctx request w).2.log =
          w.log ++
            [.breaker inst none,
             .spanStart operationName [("peer.address", inst)] w.clock,
             .middleware,
             .transport baseURL request,
             .spanEnd (w.clock + (env.transport baseURL ctx request w.clock).elapsed)
               (env.transport baseURL ctx request w.clock).err]) := by
  refine ⟨?_, ?_, ?_⟩
  · intro w0; simp [factory, hparse, instanceEndpoint_eq]
  · intro ctx request w err hdeny
    rw [instanceEndpoint_eq, Gobreaker_denied inst _ ctx request w err hdeny]
    exact ⟨rfl, rfl⟩
  · intro ctx request w hadmit
    rw [instanceEndpoint_eq]
    rcases hb : (w.breakers inst).beforeRequest w.clock with ⟨cb, g, v⟩
    rw [hb] at hadmit
    simp only at hadmit
    subst hadmit
    simp [Gobreaker, hb, ClientEndpoint, observed, passThrough, clientEndpoint, World.emit,
      World.setBreaker]

/-- Witness of `stage_order`: the first call of the endpoint built for `http://a` in the
sample environment. -/
theorem stage_order_witness :
    (sampleEndpoint Context.Background "req" sampleFresh).2.log =
      [.breaker "http://a" none,
       .spanStart "op" [("peer.address", "http://a")] 100,
       .middleware,
       .transport ⟨"http://a"⟩ "req",
       .spanEnd 101 (some (.other "refused"))] :=
  ((stage_order sampleEnv passThrough "op" "http://a" ⟨"http://a"⟩ rfl).2.2
    Context.Background "req" sampleFresh rfl).2

/-- C2: the trip predicate the factory gives every breaker is true exactly when the
count of consecutive failures is greater than 5, whatever the other counters hold; after
5 consecutive failures it is false and the breaker is still closed, after the 6th it is
true and the breaker is open, both on the counters alone and on the calls of an endpoint
the factory built. -/
theorem readyToTrip_spec (now : Time) (counts : Counts) :
    (NewCircuitBreaker breakerSettings now).readyToTrip = ReadyToTrip ∧
    (ReadyToTrip counts = true ↔ counts.ConsecutiveFailures > 5) ∧
    ReadyToTrip (Counts.onFailure^[5] Counts.clear) = false ∧
    ReadyToTrip (Counts.onFailure^[6] Counts.clear) = true ∧
    ((fun cb : CircuitBreaker => cb.onFailure cb.state now)^[5]
        (NewCircuitBreaker breakerSettings now)).state = .StateClosed ∧
    ((fun cb : CircuitBreaker => cb.onFailure cb.state now)^[6]
        (NewCircuitBreaker breakerSettings now)).state = .StateOpen ∧
    ((callN sampleEndpoint 5 sampleFresh).breakers "http://a").state = .StateClosed ∧
    ((callN sampleEndpoint 6 sampleFresh).breakers "http://a").state = .StateOpen := by
  refine ⟨rfl, by simp [ReadyToTrip], by decide, by decide, ?_, ?_, rfl, rfl⟩
  · simp [NewCircuitBreaker, breakerSettings, CircuitBreaker.toNewGeneration,
      CircuitBreaker.onFailure, CircuitBreaker.setState, Counts.onFailure, Counts.clear, u32, u64,
      ReadyToTrip, Function.iterate_succ]
  · simp [NewCircuitBreaker, breakerSettings, CircuitBreaker.toNewGeneration,
      CircuitBreaker.onFailure, CircuitBreaker.setState, Counts.onFailure, Counts.clear, u32, u64,
      ReadyToTrip, Function.iterate_succ]

/-- C3, as the specification states it, fails: 20 seconds after the breaker of `http://a`
opened it is half-open and admits five trial requests; while these are in flight the
sixth call is denied with `ErrTooManyRequests`, which is not the breaker-open error
`ErrOpenState`. -/
theorem breaker_open_error_counterexample :
    (sampleOpen.breakers "http://a").state = .StateOpen ∧
    (List.range 5).all (fun k =>
      ((((afterAdmission sampleLater)^[k] (sampleOpen.breakers "http://a")).beforeRequest
        sampleLater).2.2).isNone) = true ∧
    (sampleHalfOpen.breakers "http://a").state = .StateHalfOpen ∧
    (sampleHalfOpen.breakers "http://a").counts.Requests = 5 ∧
    (sampleHalfOpen.breakers "http://a").maxRequests = 5 ∧
    ((sampleHalfOpen.breakers "http://a").beforeRequest sampleHalfOpen.clock).2.2 =
      some .ErrTooManyRequests ∧
    (sampleEndpoint Context.Background "req" sampleHalfOpen).1.err =
      some .ErrTooManyRequests ∧
    (sampleEndpoint Context.Background "req" sampleHalfOpen).1.err ≠ some .ErrOpenState := by
  refine ⟨rfl, rfl, rfl, rfl, rfl, rfl, rfl, ?_⟩
  intro h
  have h2 : (sampleEndpoint Context.Background "req" sampleHalfOpen).1.err =
      some .ErrTooManyRequests := rfl
  rw [h2] at h
  cases h

/-- C3, amended: for every request sent to an endpoint the factory built while the
breaker of that instance denies admission, the call returns the rejection error of the
breaker with a nil response: the breaker-open error `ErrOpenState` when the breaker is
open, `ErrTooManyRequests` when it is half-open with all its trial requests admitted,
and admission is denied in no other state.  Neither the transport call nor the
middleware of the caller is executed: the world only gains the breaker event, and the
outcome is the same whatever the transport and the middleware are. -/
theorem denied_call (env : Env) (middleware : Middleware) (operationName inst : String)
    (baseURL : URL) (ctx : Context) (request : Request) (w : World) (err : GoError)
    (hparse : env.parse inst = .ok baseURL)
    (hdeny : ((w.breakers inst).beforeRequest w.clock).2.2 = some err) :
    (∀ w0, (factory env middleware operationName inst w0).1.endpoint =
        some (instanceEndpoint env middleware operationName inst baseURL)) ∧
    (instanceEndpoint env middleware operationName inst baseURL ctx request w).1 =
        ⟨none, some err⟩ ∧
    ((((w.breakers inst).currentState w.clock).state = .StateOpen ∧ err = .ErrOpenState) ∨
      (((w.breakers inst).currentState w.clock).state = .StateHalfOpen ∧
        ((w.breakers inst).currentState w.clock).counts.Requests ≥
          ((w.breakers inst).currentState w.clock).maxRequests ∧
        err = .ErrTooManyRequests)) ∧
    (((w.breakers inst).currentState w.clock).state = .StateOpen → err = .ErrOpenState) ∧
    (((w.breakers inst).currentState w.clock).state = .StateHalfOpen →
      err = .ErrTooManyRequests) ∧
    (instanceEndpoint env middleware operationName inst baseURL ctx request w).2 =
        (w.setBreaker inst ((w.breakers inst).currentState w.clock)).emit
          (.breaker inst (some err)) ∧
    (instanceEndpoint env middleware operationName inst baseURL ctx request w).2.log =
        w.log ++ [.breaker inst (some err)] ∧
    ((instanceEndpoint env middleware operationName inst baseURL ctx request w).2.log.drop
        w.log.length).all (fun e => !(e.isTransport || e.isMiddleware || e.isSpan)) = true ∧
    (∀ (env2 : Env) (middleware2 : Middleware),
        instanceEndpoint env2 middleware2 operationName inst baseURL ctx request w =
          instanceEndpoint env middleware operationName inst baseURL ctx request w) := by
  have hd := beforeRequest_denied _ _ _ hdeny
  have hcall : ∀ (env2 : Env) (middleware2 : Middleware),
      instanceEndpoint env2 middleware2 operationName inst baseURL ctx request w =
        (⟨none, some err⟩,
          (w.setBreaker inst ((w.breakers inst).currentState w.clock)).emit
            (.breaker inst (some err))) := by
    intro env2 middleware2
    rw [instanceEndpoint_eq]
    exact Gobreaker_denied inst _ ctx request w err hdeny
  have hc := beforeRequest_denied_cases _ _ _ hdeny
  refine ⟨?_, ?_, hc, hd.2.2, ?_, ?_, ?_, ?_, ?_⟩
  · intro w0; simp [factory, hparse]
  · rw [hcall]
  · intro hs
    rcases hc with ⟨ho, _⟩ | ⟨_, _, he⟩
    · rw [hs] at ho; cases ho
    · exact he
  · rw [hcall]
  · rw [hcall]; rfl
  · rw [hcall]
    simp [World.emit, World.setBreaker, Event.isTransport, Event.isMiddleware, Event.isSpan]
  · intro env2 middleware2; rw [hcall, hcall]

/-- Witness of `denied_call`: the seventh call of the sample endpoint, whose breaker is
open. -/
theorem denied_call_witness :
    (sampleEndpoint Context.Background "req" sampleOpen).1 = ⟨none, some .ErrOpenState⟩ :=
  (denied_call sampleEnv passThrough "op" "http://a" ⟨"http://a"⟩ Context.Background "req"
    sampleOpen .ErrOpenState rfl rfl).2.1

/-- C4, as the specification states it, fails: in an environment where every wire call is
refused after three seconds, the first attempt of a call fails after 3 seconds and the
deadline of 5 seconds passes during the second, which is refused as well; the call
returns at the deadline, having made 2 attempts, not 3, none of which succeeded, and it
returns `DeadlineExceeded`, not the error of the last attempt. -/
theorem deadline_counterexample :
    (attempt (NewRandom sampleSlow.1) (retryCtx Context.Background sampleSlow.2) "req" 1
      (retryStart "op" sampleSlow.2)).1.err = some (.other "refused") ∧
    (attempt (NewRandom sampleSlow.1) (retryCtx Context.Background sampleSlow.2) "req" 2
      sampleSlowFirst).1.err = some (.other "refused") ∧
    (retryRunOf sampleSlow.1 "op" Context.Background "req" sampleSlow.2).attempts = 2 ∧
    (retryRunOf sampleSlow.1 "op" Context.Background "req" sampleSlow.2).returnedAt =
      100 + 5000000000 ∧
    (retryRunOf sampleSlow.1 "op" Context.Background "req" sampleSlow.2).inFlight = true ∧
    (CreateHTTPEndpoint sampleSlow.1 "op" Context.Background "req" sampleSlow.2).1.err =
      some .DeadlineExceeded ∧
    (retryRunOf sampleSlow.1 "op" Context.Background "req" sampleSlow.2).attempts ≠ 3 ∧
    (CreateHTTPEndpoint sampleSlow.1 "op" Context.Background "req" sampleSlow.2).1.err ≠
      some (.other "refused") := by
  refine ⟨rfl, rfl, rfl, rfl, rfl, rfl, by decide, ?_⟩
  intro h
  have h2 : (CreateHTTPEndpoint sampleSlow.1 "op" Context.Background "req" sampleSlow.2).1.err =
      some .DeadlineExceeded := rfl
  rw [h2] at h
  cases h

/-- C4, amended: one call of the endpoint `CreateHTTPEndpoint` returns makes at least one
and at most 3 attempts.  When three attempts fail, each before the context of the call
is done (its deadline of 5 seconds, or the caller's own context), it has made exactly 3
attempts; the retry stage returns a `RetryError` listing the three errors whose `Final`
is the error of the last attempt, and the endpoint returns that last error.  When the
first attempt fails and the second succeeds, both before the context is done, it has
made exactly 2 attempts and returns that response.  When the context is done during the
first, second or third attempt, the retry stage returns the error of the context after
that many attempts.  The endpoint hands on the result of the retry stage with a
`RetryError` replaced by its `Final` error. -/
theorem retry_attempts (endpoints : EndpointCache) (operationName : String) (ctx : Context)
    (request : Request) (w : World) :
    (1 ≤ (retryRunOf endpoints operationName ctx request w).attempts ∧
      (retryRunOf endpoints operationName ctx request w).attempts ≤ 3) ∧
    (CreateHTTPEndpoint endpoints operationName ctx request w).2 =
      (retryRunOf endpoints operationName ctx request w).world.emit .retrySpanEnd ∧
    (∀ (r1 r2 r3 : Option Response) (e1 e2 e3 : GoError) (w1 w2 w3 : World),
      attempt (NewRandom endpoints) (retryCtx ctx w) request 1 (retryStart operationName w)
        = (⟨r1, some e1⟩, w1) →
      (retryCtx ctx w).Err w1.clock = none →
      attempt (NewRandom endpoints) (retryCtx ctx w) request 2 w1 = (⟨r2, some e2⟩, w2) →
      (retryCtx ctx w).Err w2.clock = none →
      attempt (NewRandom endpoints) (retryCtx ctx w) request 3 w2 = (⟨r3, some e3⟩, w3) →
      (retryCtx ctx w).Err w3.clock = none →
      (retryRunOf endpoints operationName ctx request w).attempts = 3 ∧
      CreateHTTPEndpoint endpoints operationName ctx request w =
        (⟨none, some e3⟩, w3.emit .retrySpanEnd) ∧
      (retryRunOf endpoints operationName ctx request w).result =
        ⟨none, some (.RetryError [e1, e2, e3] e3)⟩) ∧
    (∀ (r1 : Option Response) (e1 : GoError) (response : Option Response) (w1 w2 : World),
      attempt (NewRandom endpoints) (retryCtx ctx w) request 1 (retryStart operationName w)
        = (⟨r1, some e1⟩, w1) →
      (retryCtx ctx w).Err w1.clock = none →
      attempt (NewRandom endpoints) (retryCtx ctx w) request 2 w1 = (⟨response, none⟩, w2) →
      (retryCtx ctx w).Err w2.clock = none →
      (retryRunOf endpoints operationName ctx request w).attempts = 2 ∧
      CreateHTTPEndpoint endpoints operationName ctx request w =
        (⟨response, none⟩, w2.emit .retrySpanEnd)) ∧
    (∀ (out : Result) (w1 : World) (ctxErr : GoError),
      attempt (NewRandom endpoints) (retryCtx ctx w) request 1 (retryStart operationName w)
        = (out, w1) →
      (retryCtx ctx w).Err w1.clock = some ctxErr →
      (retryRunOf endpoints operationName ctx request w).attempts = 1 ∧
      (retryRunOf endpoints operationName ctx request w).result = ⟨none, some ctxErr⟩) ∧
    (∀ (r1 : Option Response) (e1 : GoError) (out : Result) (w1 w2 : World) (ctxErr : GoError),
      attempt (NewRandom endpoints) (retryCtx ctx w) request 1 (retryStart operationName w)
        = (⟨r1, some e1⟩, w1) →
      (retryCtx ctx w).Err w1.clock = none →
      attempt (NewRandom endpoints) (retryCtx ctx w) request 2 w1 = (out, w2) →
      (retryCtx ctx w).Err w2.clock = some ctxErr →
      (retryRunOf endpoints operationName ctx request w).attempts = 2 ∧
      (retryRunOf endpoints operationName ctx request w).result = ⟨none, some ctxErr⟩) ∧
    (∀ (r1 r2 : Option Response) (e1 e2 : GoError) (out : Result) (w1 w2 w3 : World)
        (ctxErr : GoError),
      attempt (NewRandom endpoints) (retryCtx ctx w) request 1 (retryStart operationName w)
        = (⟨r1, some e1⟩, w1) →
      (retryCtx ctx w).Err w1.clock = none →
      attempt (NewRandom endpoints) (retryCtx ctx w) request 2 w1 = (⟨r2, some e2⟩, w2) →
      (retryCtx ctx w).Err w2.clock = none →
      attempt (NewRandom endpoints) (retryCtx ctx w) request 3 w2 = (out, w3) →
      (retryCtx ctx w).Err w3.clock = some ctxErr →
      (retryRunOf endpoints operationName ctx request w).attempts = 3 ∧
      (retryRunOf endpoints operationName ctx request w).result = ⟨none, some ctxErr⟩) ∧
    ((∀ response,
        (retryRunOf endpoints operationName ctx request w).result = ⟨response, none⟩ →
        (CreateHTTPEndpoint endpoints operationName ctx request w).1 = ⟨response, none⟩) ∧
      (∀ response raw final,
        (retryRunOf endpoints operationName ctx request w).result =
          ⟨response, some (.RetryError raw final)⟩ →
        (CreateHTTPEndpoint endpoints operationName ctx request w).1 =
          ⟨response, some final⟩) ∧
      (∀ response e,
        (retryRunOf endpoints operationName ctx request w).result = ⟨response, some e⟩ →
        (∀ raw final, e ≠ .RetryError raw final) →
        (CreateHTTPEndpoint endpoints operationName ctx request w).1 =
          ⟨response, some e⟩)) := by
  obtain ⟨hloop, h1, h2⟩ := retryRunOf_loop endpoints operationName ctx request w
  refine ⟨⟨h1, h2⟩, ?_, ?_, ?_, ?_, ?_, ?_,
    UnwrapError_result endpoints operationName ctx request w⟩
  · rw [CreateHTTPEndpoint_eq, UnwrapError_world]
  · intro r1 r2 r3 e1 e2 e3 w1 w2 w3 a1 c1 a2 c2 a3 c3
    exact retry_three_failures endpoints operationName ctx request w r1 r2 r3 e1 e2 e3
      w1 w2 w3 a1 c1 a2 c2 a3 c3
  · intro r1 e1 response w1 w2 a1 c1 a2 c2
    rw [retryLoop_fail _ _ _ _ _ _ _ _ _ _ _ a1 c1] at hloop
    rw [retryLoop_ok _ _ _ _ _ _ _ _ _ _ a2 c2] at hloop
    simp at hloop
    rw [CreateHTTPEndpoint_eq, ← hloop]
    exact ⟨rfl, rfl⟩
  · intro out w1 ctxErr a1 c1
    rw [retryLoop_done _ _ _ _ _ _ _ _ _ _ _ a1 c1] at hloop
    simp at hloop
    rw [← hloop]
    exact ⟨rfl, rfl⟩
  · intro r1 e1 out w1 w2 ctxErr a1 c1 a2 c2
    rw [retryLoop_fail _ _ _ _ _ _ _ _ _ _ _ a1 c1] at hloop
    rw [retryLoop_done _ _ _ _ _ _ _ _ _ _ _ a2 c2] at hloop
    simp at hloop
    rw [← hloop]
    exact ⟨rfl, rfl⟩
  · intro r1 r2 e1 e2 out w1 w2 w3 ctxErr a1 c1 a2 c2 a3 c3
    rw [retryLoop_fail _ _ _ _ _ _ _ _ _ _ _ a1 c1] at hloop
    rw [retryLoop_fail _ _ _ _ _ _ _ _ _ _ _ a2 c2] at hloop
    rw [retryLoop_done _ _ _ _ _ _ _ _ _ _ _ a3 c3] at hloop
    simp at hloop
    rw [← hloop]
    exact ⟨rfl, rfl⟩

/-- Witness of `retry_attempts`: in the sample environment the first attempt goes to
`http://a` and is refused, the second goes to `http://b` and succeeds. -/
theorem retry_attempts_witness :
    (retryRunOf samplePair.1 "op" Context.Background "req" samplePair.2).attempts = 2 ∧
    CreateHTTPEndpoint samplePair.1 "op" Context.Background "req" samplePair.2 =
      (⟨some "pong", none⟩, samplePairSecond.emit .retrySpanEnd) :=
  (retry_attempts samplePair.1 "op" Context.Background "req" samplePair.2).2.2.2.1
    none (.other "refused") (some "pong") samplePairFirst samplePairSecond rfl rfl rfl rfl

/-- C5: every breaker the factory creates has a trial-request cap of 5, a rolling window
of 10 seconds and a cool-down of 10 seconds; the retry stage is set up with 3 attempts
and a timeout of 5 seconds, and the retry span annotation is given the same attempt
count and timeout.  With no endpoint available a call makes its 3 attempts under a span
annotated with 3 and 5 seconds. -/
theorem configuration (now : Time) :
    ((NewCircuitBreaker breakerSettings now).maxRequests = 5 ∧
      (NewCircuitBreaker breakerSettings now).interval = 10 * 1000000000 ∧
      (NewCircuitBreaker breakerSettings now).timeout = 10 * 1000000000 ∧
      (NewCircuitBreaker breakerSettings now).state = .StateClosed ∧
      (NewCircuitBreaker breakerSettings now).expiry = now + 10 * 1000000000) ∧
    (∀ (env : Env) (middleware : Middleware) (operationName inst : String) (u : URL) (w : World),
      env.parse inst = .ok u →
      (factory env middleware operationName inst w).2.breakers inst =
        NewCircuitBreaker breakerSettings w.clock) ∧
    (count = 3 ∧ timeout = 5 * 1000000000) ∧
    (∀ (endpoints : EndpointCache) (operationName : String),
      CreateHTTPEndpoint endpoints operationName =
        UnwrapError (RetryEndpoint operationName ocRandom 3 (5 * Second)
          (Retry 3 (5 * Second) (NewRandom endpoints)))) ∧
    (∀ (ctx : Context) (w : World), ctx.doneAt = none →
      (retryCtx ctx w).doneAt = some (w.clock + 5 * 1000000000) ∧
      (retryCtx ctx w).err = .DeadlineExceeded) ∧
    (∀ (operationName : String) (request : Request) (w : World),
      (CreateHTTPEndpoint EndpointCache.empty operationName Context.Background request w).1 =
        ⟨none, some .ErrNoEndpoints⟩ ∧
      (CreateHTTPEndpoint EndpointCache.empty operationName Context.Background request w).2.log =
        w.log ++ [.retrySpanStart operationName "random" 3 (5 * 1000000000), .attempt 1,
          .attempt 2, .attempt 3, .retrySpanEnd]) := by
  refine ⟨?_, ?_, ⟨rfl, rfl⟩, ?_, ?_, ?_⟩
  · simp [NewCircuitBreaker, breakerSettings, CircuitBreaker.toNewGeneration, Second]
  · intro env middleware operationName inst u w hp
    simp [factory, hp, World.setBreaker]
  · intro endpoints operationName; rfl
  · intro ctx w h
    simp [retryCtx, Context.WithTimeout, h, timeout, Second]
  · intro operationName request w
    have hctx : ∀ w1 : World, w1.clock = w.clock →
        (retryCtx Context.Background w).Err w1.clock = none := by
      intro w1 h1
      simp [retryCtx, Context.WithTimeout, Context.Background, Context.Err, timeout, Second, h1]
    have key := retry_three_failures EndpointCache.empty operationName Context.Background
      request w none none none .ErrNoEndpoints .ErrNoEndpoints .ErrNoEndpoints
      ((retryStart operationName w).emit (.attempt 1))
      (((retryStart operationName w).emit (.attempt 1)).emit (.attempt 2))
      ((((retryStart operationName w).emit (.attempt 1)).emit (.attempt 2)).emit (.attempt 3))
      rfl (hctx _ rfl) rfl (hctx _ rfl) rfl (hctx _ rfl)
    rw [key.2.1]
    refine ⟨rfl, ?_⟩
    simp [World.emit, retryStart, ocRandom, count, timeout, Second]

/-- Witness of `configuration`: the breaker the factory creates for `http://a` at the
instant 100. -/
theorem configuration_witness :
    (factory sampleEnv passThrough "op" "http://a" (World.init 100 [])).2.breakers "http://a" =
      NewCircuitBreaker breakerSettings 100 :=
  (configuration 100).2.1 sampleEnv passThrough "op" "http://a" ⟨"http://a"⟩
    (World.init 100 []) rfl

/-- C6: the factory fails exactly when the instance string does not parse as a URL; when
it fails it returns no endpoint and no closer, together with the parse error, and leaves
the world as it was; when it succeeds it returns an endpoint, no closer and a nil error.
Hence the endpointer, fed with any instances, holds endpoints only for addresses that
parse: a malformed address never yields a selectable endpoint. -/
theorem factory_spec (env : Env) (middleware : Middleware) (operationName inst : String)
    (w : World) :
    (((factory env middleware operationName inst w).1.err ≠ none) ↔
        ∃ e, env.parse inst = .error e) ∧
    (∀ e, env.parse inst = .error e →
        (factory env middleware operationName inst w).1.endpoint = none ∧
        (factory env middleware operationName inst w).1.closer = none ∧
        (factory env middleware operationName inst w).1.err = some e ∧
        (factory env middleware operationName inst w).2 = w) ∧
    (∀ u, env.parse inst = .ok u →
        (factory env middleware operationName inst w).1.endpoint ≠ none ∧
        (factory env middleware operationName inst w).1.closer = none ∧
        (factory env middleware operationName inst w).1.err = none) ∧
    (∀ (c : EndpointCache) (instances : List String),
        (∀ sc ∈ c.cache, parses env sc.1) →
        (∀ sc ∈ (endpointerUpdate env middleware operationName c instances w).1.cache,
            parses env sc.1) ∧
        (∀ e ∈ (endpointerUpdate env middleware operationName c instances w).1.endpoints,
            ∃ sc ∈ (endpointerUpdate env middleware operationName c instances w).1.cache,
              sc.2 = e ∧ parses env sc.1)) := by
  refine ⟨?_, ?_, ?_, ?_⟩
  · cases hp : env.parse inst <;> simp [factory, hp]
  · intro e hp; simp [factory, hp]
  · intro u hp; simp [factory, hp]
  · intro c instances hc
    have hk := fillCache_keys env middleware operationName
      (sortStrings instances) c.cache [] w hc (by simp)
    refine ⟨hk, ?_⟩
    intro e he
    simp only [endpointerUpdate, updateCache, List.mem_filterMap, Option.map_eq_some'] at he
    obtain ⟨i, _, sc, hsc, rfl⟩ := he
    have hmem := List.mem_of_find?_eq_some hsc
    exact ⟨sc, hmem, rfl, hk sc hmem⟩

/-- Witness of `factory_spec`: the address `bad` does not parse in the sample
environment. -/
theorem factory_spec_witness :
    (factory sampleEnv passThrough "op" "bad" (World.init 100 [])).1.endpoint = none ∧
    (factory sampleEnv passThrough "op" "bad" (World.init 100 [])).1.closer = none ∧
    (factory sampleEnv passThrough "op" "bad" (World.init 100 [])).1.err =
      some (.other "parse") ∧
    (factory sampleEnv passThrough "op" "bad" (World.init 100 [])).2 = World.init 100 [] :=
  (factory_spec sampleEnv passThrough "op" "bad" (World.init 100 [])).2.1 (.other "parse") rfl

namespace Qr

/-- C7: `Generate` returns `ErrInvalidRecoveryLevel` and no bytes when the level is below
`LevelL` or above `LevelH`, whatever the size; otherwise `ErrInvalidSize` and no bytes
when the size is greater than 4096; otherwise it calls the encoder once and returns its
bytes, with `ErrGenerate` when the encoder failed and a nil error when it did not.  So
the error is nil or one of the three service errors, never the error of the encoder
library, and the encoder is not called on invalid input. -/
theorem Generate_spec (lv : Levels) (encode : Encoder) (url : String) (recLevel size : Int) :
    ((recLevel < lv.LevelL ∨ recLevel > lv.LevelH) →
        (Generate lv encode url recLevel size).bytes = none ∧
        (Generate lv encode url recLevel size).err = some .qrErrInvalidRecoveryLevel ∧
        (Generate lv encode url recLevel size).encodeCalls = []) ∧
    (¬ (recLevel < lv.LevelL ∨ recLevel > lv.LevelH) → size > 4096 →
        (Generate lv encode url recLevel size).bytes = none ∧
        (Generate lv encode url recLevel size).err = some .qrErrInvalidSize ∧
        (Generate lv encode url recLevel size).encodeCalls = []) ∧
    (¬ (recLevel < lv.LevelL ∨ recLevel > lv.LevelH) → ¬ size > 4096 →
        (Generate lv encode url recLevel size).encodeCalls = [⟨url, recLevel, size⟩] ∧
        (Generate lv encode url recLevel size).bytes = (encode url recLevel size).1 ∧
        ((encode url recLevel size).2 ≠ none →
          (Generate lv encode url recLevel size).err = some .qrErrGenerate) ∧
        ((encode url recLevel size).2 = none →
          (Generate lv encode url recLevel size).err = none)) ∧
    ((Generate lv encode url recLevel size).err = none ∨
      (Generate lv encode url recLevel size).err = some .qrErrInvalidRecoveryLevel ∨
      (Generate lv encode url recLevel size).err = some .qrErrInvalidSize ∨
      (Generate lv encode url recLevel size).err = some .qrErrGenerate) ∧
    (∀ msg, (Generate lv encode url recLevel size).err ≠ some (.other msg)) := by
  by_cases h1 : recLevel < lv.LevelL ∨ recLevel > lv.LevelH
  · simp [Generate, h1]
  · by_cases h2 : size > 4096
    · simp [Generate, h1, h2]
    · rcases he : encode url recLevel size with ⟨b, _ | e⟩ <;>
        simp [Generate, h1, h2, he]

/-- Witness of `Generate_spec`: a valid level and size on which the sample encoder
fails. -/
theorem Generate_spec_witness :
    (Generate sampleLevels sampleEncoder "" 1 10).err = some .qrErrGenerate :=
  ((Generate_spec sampleLevels sampleEncoder "" 1 10).2.2.1 (by decide) (by decide)).2.2.1
    (by simp [sampleEncoder])

end Qr

namespace Frontend

/-- C8: `UnlockDevice` and `GenerateQR` reject the same inputs with the same error, in a
fixed order: `ErrRequireEventID` exactly when the event id is the nil UUID,
`ErrRequireDeviceID` exactly when the event id is not nil and the device id is,
`ErrRequireUnlockCode` exactly when both are not nil and the unlock code is empty after
trimming carriage return, newline, tab and space from both ends (that is, it consists of
such code points only).  A rejected call returns a nil result and calls neither the
device client nor the QR client; on any other input the client is called. -/
theorem frontend_validation (LevelM : Int) (devClient : DevClient) (qrClient : QrClient)
    (eventID deviceID : UUID) (unlockCode : String) :
    (((UnlockDevice devClient eventID deviceID unlockCode).rejectedWith .feErrRequireEventID
        ↔ eventID = UUID.Nil) ∧
     ((UnlockDevice devClient eventID deviceID unlockCode).rejectedWith .feErrRequireDeviceID
        ↔ eventID ≠ UUID.Nil ∧ deviceID = UUID.Nil) ∧
     ((UnlockDevice devClient eventID deviceID unlockCode).rejectedWith .feErrRequireUnlockCode
        ↔ eventID ≠ UUID.Nil ∧ deviceID ≠ UUID.Nil ∧ Trim unlockCode "\r\n\t " = "")) ∧
    (((GenerateQR LevelM qrClient eventID deviceID unlockCode).rejectedWith .feErrRequireEventID
        ↔ eventID = UUID.Nil) ∧
     ((GenerateQR LevelM qrClient eventID deviceID unlockCode).rejectedWith .feErrRequireDeviceID
        ↔ eventID ≠ UUID.Nil ∧ deviceID = UUID.Nil) ∧
     ((GenerateQR LevelM qrClient eventID deviceID unlockCode).rejectedWith
        .feErrRequireUnlockCode
        ↔ eventID ≠ UUID.Nil ∧ deviceID ≠ UUID.Nil ∧ Trim unlockCode "\r\n\t " = "")) ∧
    (∀ e : GoError,
      (UnlockDevice devClient eventID deviceID unlockCode).rejectedWith e ↔
        (GenerateQR LevelM qrClient eventID deviceID unlockCode).rejectedWith e) ∧
    ((eventID = UUID.Nil ∨ deviceID = UUID.Nil ∨ Trim unlockCode "\r\n\t " = "") ↔
      (UnlockDevice devClient eventID deviceID unlockCode).devCalls = []) ∧
    ((eventID = UUID.Nil ∨ deviceID = UUID.Nil ∨ Trim unlockCode "\r\n\t " = "") ↔
      (GenerateQR LevelM qrClient eventID deviceID unlockCode).qrCalls = []) ∧
    (Trim unlockCode "\r\n\t " = "" ↔ ∀ c ∈ unlockCode.data, isBlank c) := by
  have hcut : ("\r\n\t " : String) = cutset := rfl
  rw [hcut]
  refine ⟨?_, ?_, ?_, ?_, ?_, Trim_eq_empty_iff unlockCode⟩
  all_goals
    by_cases h1 : eventID = UUID.Nil
    · simp [UnlockDevice, GenerateQR, Run.rejectedWith, h1]
    · by_cases h2 : deviceID = UUID.Nil
      · simp [UnlockDevice, GenerateQR, Run.rejectedWith, h1, h2]
      · by_cases h3 : Trim unlockCode cutset = ""
        · simp [UnlockDevice, GenerateQR, Run.rejectedWith, h1, h2, h3]
        · rcases hd : devClient eventID deviceID (Trim unlockCode cutset) with ⟨_ | s, _ | e⟩ <;>
            simp [UnlockDevice, GenerateQR, Run.rejectedWith, h1, h2, h3, hd]

/-- Witness of `frontend_validation`: a nil device id is rejected by `UnlockDevice`. -/
theorem frontend_validation_witness :
    (UnlockDevice sampleDevClient sampleEvent UUID.Nil "code").rejectedWith
      .feErrRequireDeviceID :=
  (frontend_validation 1 sampleDevClient sampleQrClient sampleEvent UUID.Nil "code").1.2.1.2
    ⟨by decide, rfl⟩

/-- C9: for a non-nil event id, a non-nil device id and an unlock code that is not empty
after trimming, `GenerateQR` calls the QR client exactly once, with the payload
`eventID.String() + ":" + deviceID.String() + ":" +` trimmed unlock code, the level
`LevelM` and the size 256, calls no other client, and returns the bytes and the error of
the QR client unchanged; the unlock code in the payload is not empty and neither starts
nor ends with a carriage return, newline, tab or space. -/
theorem GenerateQR_valid (LevelM : Int) (qrClient : QrClient) (eventID deviceID : UUID)
    (unlockCode : String) (h1 : eventID ≠ UUID.Nil) (h2 : deviceID ≠ UUID.Nil)
    (h3 : Trim unlockCode "\r\n\t " ≠ "") :
    (GenerateQR LevelM qrClient eventID deviceID unlockCode).qrCalls =
      [⟨eventID.String ++ ":" ++ deviceID.String ++ ":" ++ Trim unlockCode "\r\n\t ",
        LevelM, 256⟩] ∧
    (GenerateQR LevelM qrClient eventID deviceID unlockCode).devCalls = [] ∧
    (GenerateQR LevelM qrClient eventID deviceID unlockCode).outcome =
      .ret (qrClient (eventID.String ++ ":" ++ deviceID.String ++ ":"
              ++ Trim unlockCode "\r\n\t ") LevelM 256).1
           (qrClient (eventID.String ++ ":" ++ deviceID.String ++ ":"
              ++ Trim unlockCode "\r\n\t ") LevelM 256).2 ∧
    (Trim unlockCode "\r\n\t ").data ≠ [] ∧
    (∀ c, (Trim unlockCode "\r\n\t ").data.head? = some c → ¬ isBlank c) ∧
    (∀ c, (Trim unlockCode "\r\n\t ").data.getLast? = some c → ¬ isBlank c) := by
  have hcut : ("\r\n\t " : String) = cutset := rfl
  rw [hcut] at h3 ⊢
  refine ⟨?_, ?_, ?_, ?_, Trim_head_not_blank unlockCode, Trim_last_not_blank unlockCode⟩
  · simp [GenerateQR, h1, h2, h3]
  · simp [GenerateQR, h1, h2, h3]
  · simp [GenerateQR, h1, h2, h3]
  · intro h; exact h3 (String.ext h)

/-- Witness of `GenerateQR_valid`: the payload for the sample identifiers and an unlock
code with blanks around it. -/
theorem GenerateQR_valid_witness :
    (GenerateQR 1 sampleQrClient sampleEvent sampleDevice " \tA1 b\r\n").qrCalls
      = [⟨"01010101-0101-0101-0101-010101010101:ffffffff-ffff-ffff-ffff-ffffffffffff:A1 b",
          1, 256⟩] :=
  (GenerateQR_valid 1 sampleQrClient sampleEvent sampleDevice " \tA1 b\r\n"
    (by decide) (by decide) (by decide)).1

end Frontend

end Gokit
